import Mathlib

/-!
Shallow embedding of the audio-transcription client
(`src/config.py`, `src/service.py`, `src/endpoints.py`, `src/cli.py`).

Python values that flow through the normalizer are modelled by `Value`;
Python dicts by association lists `Payload`; a provider response of
arbitrary shape by `Resp`, recording which capabilities it has
(a `model_dump` method, being a `dict`, a `text` attribute) plus its
`str` representation.  Byte strings are modelled by their length where
only emptiness and length are inspected.  The external provider call is
a parameter of type `Except String Resp` (error = the exception's
message).  Decimal formatting of the size in MB embeds Python's
`f"{n / (1024 * 1024):.1f}"` over exact rational arithmetic
(round half to even), which agrees with the float computation on all
inputs relevant here.
-/

namespace Transcribe

/-- A Python value as far as the normalizer and CLI inspect it:
`None`, a string, an integer, or some other opaque object. -/
inductive Value where
  | vnone : Value
  | vstr : String → Value
  | vint : Int → Value
  | vother : String → Value
deriving DecidableEq, Repr

/-- A Python dict, as an association list (keys unique in practice;
lookups take the first binding). -/
abbrev Payload := List (String × Value)

/-- Python's `payload.get(k)`: the bound value, or `None` when the key
is absent. -/
def dictGet (p : Payload) (k : String) : Value :=
  match List.find? (fun kv => kv.1 == k) p with
  | some kv => kv.2
  | none => Value.vnone

/-- Whether the dict binds the key at all. -/
def hasKey (p : Payload) (k : String) : Bool :=
  List.any p (fun kv => kv.1 == k)

/-- A provider response of arbitrary shape, by the capabilities the
code probes: `model_dump` (some = the method exists and returns that
dict), being a `dict` itself, a `text` attribute (some v = the
attribute exists with value v, possibly `None`), and `str(response)`. -/
structure Resp where
  model_dump : Option Payload
  asDict : Option Payload
  textAttr : Option Value
  str_repr : String
deriving DecidableEq, Repr

/-- `config.py`: `MAX_UPLOAD_BYTES = 25 * 1024 * 1024`. -/
def MAX_UPLOAD_BYTES : Nat := 25 * 1024 * 1024

/-- `config.py`: `SUPPORTED_CONTENT_TYPES`. -/
def SUPPORTED_CONTENT_TYPES : List String :=
  ["audio/mpeg", "audio/mp3", "audio/mp4", "audio/mpeg3", "audio/mpg",
   "audio/mpga", "audio/m4a", "audio/wav", "audio/webm"]

/-- `config.py`: `DEFAULT_MODEL`. -/
def DEFAULT_MODEL : String := "gpt-4o-transcribe"

/-- Python's `f"{bytes / (1024 * 1024):.1f}"`: the byte count divided
by 2^20, printed with one digit after the decimal point, rounding half
to even, over exact arithmetic. -/
def formatMB (bytes : Nat) : String :=
  let denom := 1024 * 1024
  let num := bytes * 10
  let q := num / denom
  let r := num % denom
  let tenths :=
    if denom < 2 * r then q + 1
    else if 2 * r < denom then q
    else if q % 2 == 0 then q else q + 1
  toString (tenths / 10) ++ "." ++ toString (tenths % 10)

/-- `service.py` lines 70-81, `transcription_to_payload`: ordered
fallback over the response's capabilities. -/
def transcription_to_payload (transcription : Resp) : Payload :=
  match transcription.model_dump with
  | some d => d
  | none =>
    match transcription.asDict with
    | some d => d
    | none =>
      -- text = getattr(transcription, "text", None)
      match transcription.textAttr.getD Value.vnone with
      | Value.vnone => [("text", Value.vstr transcription.str_repr)]
      | v => [("text", v)]

/-- `service.py` lines 14-20, dataclass `TranscriptionOptions`. -/
structure TranscriptionOptions where
  model : String := DEFAULT_MODEL
  response_format : Option String := none
  prompt : Option String := none
deriving DecidableEq, Repr

/-- A value in the kwargs dict passed to the provider: the audio file
handle (modelled by an opaque id) or a string option. -/
inductive KwValue where
  | kwfile : Nat → KwValue
  | kwstr : String → KwValue
deriving DecidableEq, Repr

/-- Python truthiness of an `Optional[str]`: `None` and `""` are falsy. -/
def strTruthy : Option String → Bool
  | none => false
  | some s => s ≠ ""

/-- `service.py` lines 22-29, `TranscriptionOptions.build_kwargs`.
Insertion into the kwargs dict is modelled by appending a fresh key. -/
def TranscriptionOptions.build_kwargs (o : TranscriptionOptions)
    (file_handle : Nat) : List (String × KwValue) :=
  let kwargs : List (String × KwValue) :=
    [("file", KwValue.kwfile file_handle), ("model", KwValue.kwstr o.model)]
  let kwargs :=
    match o.response_format with
    | some s => if s ≠ "" then kwargs ++ [("response_format", KwValue.kwstr s)] else kwargs
    | none => kwargs
  match o.prompt with
  | some s => if s ≠ "" then kwargs ++ [("prompt", KwValue.kwstr s)] else kwargs
  | none => kwargs

/-- What the file system holds at the given path: nothing, something
that exists but is not a regular file (a directory), or a regular file
of the given byte size. -/
inductive PathState where
  | absent : PathState
  | directory : PathState
  | file : Nat → PathState
deriving DecidableEq, Repr

/-- The distinct exceptions `TranscriptionService.transcribe_path` can
raise, each carrying its `str(exc)` message, plus any exception the
provider call raises. -/
inductive TranscribeError where
  | fileNotFound : String → TranscribeError
  | isADirectory : String → TranscribeError
  | tooLarge : String → TranscribeError
  | providerError : String → TranscribeError
deriving DecidableEq, Repr

/-- The message carried by the exception (`str(exc)`). -/
def TranscribeError.message : TranscribeError → String
  | .fileNotFound m => m
  | .isADirectory m => m
  | .tooLarge m => m
  | .providerError m => m

/-- `service.py` lines 47-67, `TranscriptionService.transcribe_path`.
The path's file-system state and the provider call's outcome are
explicit parameters; reaching the provider at all is visible as the
result depending on `provider`. -/
def transcribe_path (audio_path : String) (st : PathState)
    (provider : Except String Resp) : Except TranscribeError Resp :=
  match st with
  | .absent => .error (.fileNotFound ("Audio file not found: " ++ audio_path))
  | .directory => .error (.isADirectory ("Expected a file at: " ++ audio_path))
  | .file file_size =>
    if MAX_UPLOAD_BYTES < file_size then
      .error (.tooLarge ("Audio file is " ++ formatMB file_size ++
        " MB, which exceeds the 25 MB upload limit." ++
        " Please compress or split the audio and retry."))
    else
      match provider with
      | .ok t => .ok t
      | .error m => .error (.providerError m)

/-- The HTTP endpoint's outcome: a raised `HTTPException` with status
and detail, or a 200 `JSONResponse` with the normalized payload. -/
inductive EndpointResult where
  | httpError : Nat → String → EndpointResult
  | ok : Payload → EndpointResult
deriving DecidableEq, Repr

/-- `endpoints.py` lines 32-85, `transcribe_endpoint`.  The uploaded
body is modelled by its byte length (`not contents` iff the length is
zero); the declared content type by an `Option String`; the provider
call's outcome is an explicit parameter. -/
def transcribe_endpoint (content_type : Option String)
    (contentLength : Nat) (provider : Except String Resp) : EndpointResult :=
  if strTruthy content_type &&
      !(SUPPORTED_CONTENT_TYPES.contains (content_type.getD "")) then
    .httpError 415 ("Unsupported content type: " ++ content_type.getD "")
  else if contentLength == 0 then
    .httpError 400 "Uploaded file is empty."
  else if MAX_UPLOAD_BYTES < contentLength then
    .httpError 413 ("File is " ++ formatMB contentLength ++
      " MB; limit is 25 MB. Please compress or split it.")
  else
    match provider with
    | .ok t => .ok (transcription_to_payload t)
    | .error m => .httpError 502 m

/-- Where the CLI put the transcript on success. -/
inductive CliOutput where
  | printed : Value → CliOutput
  | saved : String → Value → CliOutput
deriving DecidableEq, Repr

/-- The CLI's observable outcome: `parser.exit(code, msg)` or a normal
return with exit code 0 and the output action. -/
inductive CliOutcome where
  | exit : Nat → String → CliOutcome
  | done : Nat → CliOutput → CliOutcome
deriving DecidableEq, Repr

/-- `cli.py` lines 66-95, `main`, from after argument parsing:
transcribes `audio_path`, translating any exception into
`parser.exit(2, f"{prog}: error: {exc}\n")`, then extracts `text`
from the normalized payload. -/
def cli_main (prog audio_path : String) (st : PathState)
    (provider : Except String Resp) (save_to : Option String) : CliOutcome :=
  match transcribe_path audio_path st provider with
  | .error exc => .exit 2 (prog ++ ": error: " ++ exc.message ++ "\n")
  | .ok transcription =>
    let payload := transcription_to_payload transcription
    match dictGet payload "text" with
    | Value.vnone => .exit 2 (prog ++ ": error: response missing `text` field.\n")
    | text =>
      match save_to with
      | some dest => .done 0 (.saved dest text)
      | none => .done 0 (.printed text)

/-- `s` contains `pat` as a substring. -/
def strContains (s pat : String) : Prop :=
  ∃ a b, s = a ++ pat ++ b

theorem strContains_of_append (a b c : String) : strContains (a ++ b ++ c) b :=
  ⟨a, c, rfl⟩

/-- C1: `transcription_to_payload` applies its fallback cases in a fixed
order: a response with a structured-dump capability returns its dump
verbatim (the remaining shape of the response is never consulted); else a
mapping is returned unchanged; else a non-null `text` attribute yields
`{text: value}`; else `{text: str(response)}`. -/
theorem C1_payload_fallback_order (t : Resp) :
    (∀ d, t.model_dump = some d → transcription_to_payload t = d) ∧
    (t.model_dump = none → ∀ d, t.asDict = some d → transcription_to_payload t = d) ∧
    (t.model_dump = none → t.asDict = none → ∀ v, t.textAttr = some v →
      v ≠ Value.vnone → transcription_to_payload t = [("text", v)]) ∧
    (t.model_dump = none → t.asDict = none → t.textAttr.getD Value.vnone = Value.vnone →
      transcription_to_payload t = [("text", Value.vstr t.str_repr)]) := by
  obtain ⟨md, ad, ta, sr⟩ := t
  refine ⟨?_, ?_, ?_, ?_⟩
  · rintro d rfl; rfl
  · rintro rfl d rfl; rfl
  · rintro rfl rfl v rfl hv
    cases v
    · exact absurd rfl hv
    · rfl
    · rfl
    · rfl
  · rintro rfl rfl h
    rcases ta with _ | v
    · rfl
    · simp only [Option.getD_some] at h
      subst h; rfl

/-- Witness for C1: a response carrying every capability at once is resolved
by the first case alone. -/
theorem C1_payload_fallback_order_witness :
    transcription_to_payload
      ⟨some [("a", Value.vint 1)], some [], some (Value.vstr "x"), "s"⟩
      = [("a", Value.vint 1)] :=
  (C1_payload_fallback_order _).1 _ rfl

/-- C2 as stated is false: a provider response that is a bare empty mapping
is passed through verbatim, so its normalized payload has no `text` key. -/
theorem C2_counterexample :
    hasKey (transcription_to_payload ⟨none, some [], none, "obj"⟩) "text" = false := rfl

/-- C2 (amended): the normalized payload contains a `text` key whenever the
response has no structured-dump capability and is not itself a mapping;
dump and mapping responses are returned verbatim with whatever keys they
carry. -/
theorem C2_payload_text_key (t : Resp)
    (h1 : t.model_dump = none) (h2 : t.asDict = none) :
    hasKey (transcription_to_payload t) "text" = true := by
  cases hv : t.textAttr.getD Value.vnone <;>
    simp [transcription_to_payload, h1, h2, hv, hasKey]

/-- Witness for C2 (amended) at a bare-string-like response. -/
theorem C2_payload_text_key_witness :
    hasKey (transcription_to_payload ⟨none, none, none, "raw"⟩) "text" = true :=
  C2_payload_text_key ⟨none, none, none, "raw"⟩ rfl rfl

/-- C5: `build_kwargs` always binds `file` to the audio handle and `model`
to the model identifier; it binds `response_format` iff that option is
non-null and non-empty (and then to exactly that value), likewise `prompt`;
and it binds no other keys. -/
theorem C5_build_kwargs_spec (o : TranscriptionOptions) (fh : Nat) :
    (List.lookup "file" (o.build_kwargs fh) = some (KwValue.kwfile fh)) ∧
    (List.lookup "model" (o.build_kwargs fh) = some (KwValue.kwstr o.model)) ∧
    ((∃ v, List.lookup "response_format" (o.build_kwargs fh) = some v) ↔
      strTruthy o.response_format = true) ∧
    (∀ s, o.response_format = some s → s ≠ "" →
      List.lookup "response_format" (o.build_kwargs fh) = some (KwValue.kwstr s)) ∧
    ((∃ v, List.lookup "prompt" (o.build_kwargs fh) = some v) ↔
      strTruthy o.prompt = true) ∧
    (∀ s, o.prompt = some s → s ≠ "" →
      List.lookup "prompt" (o.build_kwargs fh) = some (KwValue.kwstr s)) ∧
    (∀ kv ∈ o.build_kwargs fh,
      kv.1 ∈ (["file", "model", "response_format", "prompt"] : List String)) := by
  obtain ⟨m, rf, pr⟩ := o
  rcases rf with _ | s <;> rcases pr with _ | p
  · simp [TranscriptionOptions.build_kwargs, strTruthy, List.lookup]
  · by_cases hp : p = "" <;>
      simp [TranscriptionOptions.build_kwargs, strTruthy, List.lookup, hp]
  · by_cases hs : s = "" <;>
      simp [TranscriptionOptions.build_kwargs, strTruthy, List.lookup, hs]
  · by_cases hs : s = "" <;> by_cases hp : p = "" <;>
      simp [TranscriptionOptions.build_kwargs, strTruthy, List.lookup, hs, hp]

/-- Witness for C5: with `response_format = "json"` and no prompt the kwargs
bind exactly `file`, `model`, `response_format`. -/
theorem C5_build_kwargs_spec_witness :
    List.lookup "response_format"
      (TranscriptionOptions.build_kwargs ⟨"whisper-1", some "json", none⟩ 7)
      = some (KwValue.kwstr "json") :=
  (C5_build_kwargs_spec ⟨"whisper-1", some "json", none⟩ 7).2.2.2.1 "json" rfl (by decide)

/-- C3 as stated is false: `transcribe_path` performs no emptiness check, so
a zero-byte regular file is passed to the provider and the provider's
response is returned, with no "empty input" error. -/
theorem C3_counterexample :
    transcribe_path "empty.mp3" (PathState.file 0)
      (Except.ok ⟨none, none, some (Value.vstr "t"), "t"⟩)
      = Except.ok ⟨none, none, some (Value.vstr "t"), "t"⟩ := rfl

/-- C3 (amended): a zero-length upload is rejected by the HTTP endpoint with
the 400 "empty input" error before any provider call, for every declared
content type that passes the content-type check; the file-system path
variant has no emptiness check and forwards zero-byte files to the
provider. -/
theorem C3_empty_input (ct : Option String) (provider : Except String Resp) :
    (strTruthy ct = false ∨ SUPPORTED_CONTENT_TYPES.contains (ct.getD "") = true →
      transcribe_endpoint ct 0 provider = .httpError 400 "Uploaded file is empty.") ∧
    (∀ path r, transcribe_path path (.file 0) (Except.ok r) = Except.ok r) := by
  constructor
  · rintro (h | h)
    · simp [transcribe_endpoint, h]
    · simp [transcribe_endpoint, List.elem_iff.mp h]
  · intro path r; rfl

/-- Witness for C3 (amended): an empty body with no declared content type is
rejected with 400 even though the provider would have failed. -/
theorem C3_empty_input_witness :
    transcribe_endpoint none 0 (Except.error "boom") =
      .httpError 400 "Uploaded file is empty." :=
  (C3_empty_input none (Except.error "boom")).1 (Or.inl rfl)

/-- C4: the size check accepts every non-empty body of at most 25 MiB (the
provider is then called and its normalized payload returned) and rejects
every larger body with 413, the message containing the size in MB to one
decimal place and the 25 MB limit; `transcribe_path` rejects oversized
files with the corresponding message; a 30 MB body is reported as
"30.0 MB". -/
theorem C4_size_check (L : Nat) (provider : Except String Resp) (path : String) :
    (0 < L → L ≤ MAX_UPLOAD_BYTES → ∀ r,
      transcribe_endpoint none L (Except.ok r) = .ok (transcription_to_payload r)) ∧
    (MAX_UPLOAD_BYTES < L →
      transcribe_endpoint none L provider =
        .httpError 413 ("File is " ++ formatMB L ++
          " MB; limit is 25 MB. Please compress or split it.") ∧
      strContains ("File is " ++ formatMB L ++
        " MB; limit is 25 MB. Please compress or split it.") (formatMB L ++ " MB") ∧
      strContains ("File is " ++ formatMB L ++
        " MB; limit is 25 MB. Please compress or split it.") "25 MB") ∧
    (MAX_UPLOAD_BYTES < L →
      transcribe_path path (.file L) provider =
        .error (.tooLarge ("Audio file is " ++ formatMB L ++
          " MB, which exceeds the 25 MB upload limit." ++
          " Please compress or split the audio and retry.")) ∧
      strContains ("Audio file is " ++ formatMB L ++
        " MB, which exceeds the 25 MB upload limit." ++
        " Please compress or split the audio and retry.") "25 MB") ∧
    formatMB (30 * 1024 * 1024) = "30.0" := by
  refine ⟨?_, ?_, ?_, rfl⟩
  · intro h1 h2 r
    simp [transcribe_endpoint, strTruthy, h1.ne', Nat.not_lt.mpr h2]
  · intro h
    have h0 : L ≠ 0 := by omega
    refine ⟨?_, ?_, ?_⟩
    · simp [transcribe_endpoint, strTruthy, h0, h]
    · exact ⟨"File is ", "; limit is 25 MB. Please compress or split it.",
        by simp [String.append_assoc]⟩
    · exact ⟨"File is " ++ formatMB L ++ " MB; limit is ",
        ". Please compress or split it.", by simp [String.append_assoc]⟩
  · intro h
    refine ⟨?_, ?_⟩
    · simp [transcribe_path, h]
    · exact ⟨"Audio file is " ++ formatMB L ++ " MB, which exceeds the ",
        " upload limit. Please compress or split the audio and retry.",
        by simp [String.append_assoc]⟩

/-- Witness for C4: a 30 MB body is rejected with 413 and the message
"File is 30.0 MB; limit is 25 MB. Please compress or split it.". -/
theorem C4_size_check_witness :
    transcribe_endpoint none (30 * 1024 * 1024) (Except.error "x") =
      .httpError 413 "File is 30.0 MB; limit is 25 MB. Please compress or split it." := by
  have h := ((C4_size_check (30 * 1024 * 1024) (Except.error "x") "p").2.1
    (by decide)).1
  exact h.trans (by rfl)

/-- C6 as stated is false: an upload declaring the empty string as its
content type is non-null and not in the allow-list, yet the endpoint
accepts it (Python truthiness treats `""` like an absent content type) and
returns the provider's normalized payload. -/
theorem C6_counterexample :
    SUPPORTED_CONTENT_TYPES.contains "" = false ∧
    transcribe_endpoint (some "") 1 (Except.ok ⟨none, none, some (Value.vstr "t"), "t"⟩)
      = EndpointResult.ok [("text", Value.vstr "t")] := ⟨rfl, rfl⟩

/-- C6 (amended): an upload whose declared content type is non-null,
non-empty and outside the allow-list is rejected with 415 before the body
or the provider is consulted; an allow-listed, absent, or empty-string
declared content type passes the check (the outcome is exactly as if no
content type had been declared). -/
theorem C6_content_type_check (c : String) (L : Nat) (provider : Except String Resp) :
    (c ≠ "" → c ∉ SUPPORTED_CONTENT_TYPES →
      transcribe_endpoint (some c) L provider =
        .httpError 415 ("Unsupported content type: " ++ c)) ∧
    (c ∈ SUPPORTED_CONTENT_TYPES →
      transcribe_endpoint (some c) L provider = transcribe_endpoint none L provider) ∧
    (transcribe_endpoint (some "") L provider = transcribe_endpoint none L provider) := by
  refine ⟨?_, ?_, ?_⟩
  · intro h1 h2
    simp [transcribe_endpoint, strTruthy, h1, h2]
  · intro h
    simp [transcribe_endpoint, strTruthy, h]
  · simp [transcribe_endpoint, strTruthy]

/-- Witness for C6 (amended): a `text/html` upload is rejected with 415. -/
theorem C6_content_type_check_witness :
    transcribe_endpoint (some "text/html") 1 (Except.error "x") =
      .httpError 415 "Unsupported content type: text/html" := by
  have h := (C6_content_type_check "text/html" 1 (Except.error "x")).1
    (by decide) (by decide)
  exact h.trans (by rfl)

/-- C7: `transcribe_path` reports a missing path with the distinct
"Audio file not found" error and an existing non-regular-file path with the
distinct "Expected a file at" error, each naming the path, in both cases
independently of the provider (no size is measured and no provider call is
made); the CLI maps a nonexistent path to exit code 2 with a message naming
the missing path. -/
theorem C7_path_checks (path prog : String) (p p1 p2 : Except String Resp)
    (save : Option String) :
    (transcribe_path path .absent p =
      .error (.fileNotFound ("Audio file not found: " ++ path))) ∧
    (transcribe_path path .directory p =
      .error (.isADirectory ("Expected a file at: " ++ path))) ∧
    (transcribe_path path .absent p1 = transcribe_path path .absent p2) ∧
    (transcribe_path path .directory p1 = transcribe_path path .directory p2) ∧
    (cli_main prog path .absent p save =
      .exit 2 (prog ++ ": error: " ++ ("Audio file not found: " ++ path) ++ "\n")) ∧
    strContains (prog ++ ": error: " ++ ("Audio file not found: " ++ path) ++ "\n")
      path := by
  refine ⟨rfl, rfl, rfl, rfl, rfl, ?_⟩
  exact ⟨prog ++ ": error: " ++ "Audio file not found: ", "\n",
    by rw [String.append_assoc (prog ++ ": error: ") "Audio file not found: " path]⟩

/-- C8: an exception from the provider call propagates once with its message
intact: the endpoint turns it into a 502 whose detail is exactly the
original message, and the CLI exits with code 2 carrying the message. -/
theorem C8_provider_error (msg prog path : String) (L sz : Nat)
    (save : Option String) :
    (0 < L → L ≤ MAX_UPLOAD_BYTES →
      transcribe_endpoint none L (Except.error msg) = .httpError 502 msg) ∧
    (sz ≤ MAX_UPLOAD_BYTES →
      cli_main prog path (.file sz) (Except.error msg) save =
        .exit 2 (prog ++ ": error: " ++ msg ++ "\n")) ∧
    strContains (prog ++ ": error: " ++ msg ++ "\n") msg := by
  refine ⟨?_, ?_, ⟨prog ++ ": error: ", "\n", by simp [String.append_assoc]⟩⟩
  · intro h1 h2
    simp [transcribe_endpoint, strTruthy, h1.ne', Nat.not_lt.mpr h2]
  · intro h
    simp [cli_main, transcribe_path, Nat.not_lt.mpr h, TranscribeError.message]

/-- Witness for C8: a 1-byte upload whose provider call raises "boom" yields
a 502 carrying "boom". -/
theorem C8_provider_error_witness :
    transcribe_endpoint none 1 (Except.error "boom") = .httpError 502 "boom" :=
  (C8_provider_error "boom" "prog" "p" 1 1 none).1 (by decide) (by decide)

/-- C9: the endpoint's checks are ordered — a non-empty non-allow-listed
declared content type yields 415 regardless of the body (even an empty or
oversized one) and of the provider, and once the content-type check passes,
the empty check (400) fires at length zero while the oversize check (413)
fires only above the ceiling. -/
theorem C9_endpoint_check_order (c : String) (L : Nat) (provider : Except String Resp) :
    (c ≠ "" → c ∉ SUPPORTED_CONTENT_TYPES →
      (transcribe_endpoint (some c) 0 provider =
        .httpError 415 ("Unsupported content type: " ++ c)) ∧
      (MAX_UPLOAD_BYTES < L →
        transcribe_endpoint (some c) L provider =
          .httpError 415 ("Unsupported content type: " ++ c))) ∧
    (transcribe_endpoint none 0 provider = .httpError 400 "Uploaded file is empty.") ∧
    (MAX_UPLOAD_BYTES < L →
      transcribe_endpoint none L provider =
        .httpError 413 ("File is " ++ formatMB L ++
          " MB; limit is 25 MB. Please compress or split it.")) := by
  refine ⟨?_, ?_, ?_⟩
  · intro h1 h2
    exact ⟨by simp [transcribe_endpoint, strTruthy, h1, h2],
      fun _ => by simp [transcribe_endpoint, strTruthy, h1, h2]⟩
  · simp [transcribe_endpoint, strTruthy]
  · intro h
    have h0 : L ≠ 0 := by omega
    simp [transcribe_endpoint, strTruthy, h0, h]

/-- Witness for C9: a `text/html` upload with an empty body receives 415,
not 400. -/
theorem C9_endpoint_check_order_witness :
    transcribe_endpoint (some "text/html") 0 (Except.error "x") =
      .httpError 415 "Unsupported content type: text/html" := by
  have h := ((C9_endpoint_check_order "text/html" 0 (Except.error "x")).1
    (by decide) (by decide)).1
  exact h.trans (by rfl)

/-- C10: after a successful provider call the CLI exits with code 2 and the
"response missing `text` field" message iff looking up `text` in the
normalized payload yields null — which holds both when the key is absent
and when it is bound to an explicit null — and otherwise writes the text
(printing it, or saving it to the requested path) and returns 0. -/
theorem C10_cli_text_extraction (prog path : String) (t : Resp) (sz : Nat)
    (hsz : sz ≤ MAX_UPLOAD_BYTES) :
    (∀ save, cli_main prog path (.file sz) (Except.ok t) save =
        .exit 2 (prog ++ ": error: response missing `text` field.\n") ↔
      dictGet (transcription_to_payload t) "text" = Value.vnone) ∧
    (∀ v, dictGet (transcription_to_payload t) "text" = v → v ≠ Value.vnone →
      cli_main prog path (.file sz) (Except.ok t) none = .done 0 (.printed v) ∧
      ∀ dest, cli_main prog path (.file sz) (Except.ok t) (some dest) =
        .done 0 (.saved dest v)) ∧
    dictGet [] "text" = Value.vnone ∧
    dictGet [("text", Value.vnone)] "text" = Value.vnone := by
  have hcall : transcribe_path path (PathState.file sz) (Except.ok t) = Except.ok t := by
    simp [transcribe_path, Nat.not_lt.mpr hsz]
  refine ⟨?_, ?_, rfl, rfl⟩
  · intro save
    cases hv : dictGet (transcription_to_payload t) "text" <;> cases save <;>
      simp [cli_main, hcall, hv]
  · intro v hv hne
    cases v
    · exact absurd rfl hne
    all_goals exact ⟨by simp [cli_main, hcall, hv],
      fun dest => by simp [cli_main, hcall, hv]⟩

/-- Witness for C10: a payload binding `text` to an explicit null makes the
CLI exit with code 2 and the missing-text message. -/
theorem C10_cli_text_extraction_witness :
    cli_main "prog" "a.mp3" (PathState.file 5)
      (Except.ok ⟨none, some [("text", Value.vnone)], none, "r"⟩) none =
      CliOutcome.exit 2 "prog: error: response missing `text` field.\n" := by
  have h := ((C10_cli_text_extraction "prog" "a.mp3"
      ⟨none, some [("text", Value.vnone)], none, "r"⟩ 5 (by decide)).1 none).mpr rfl
  exact h.trans (by rfl)

end Transcribe
